import Mathlib

/-!
Verification of the crelay relay-card controller (src/crelay.c) against its
natural-language specification.  The development shallowly embeds the
observable behaviour of the request dispatcher: the HTTP form-data readers
(read_httpget_data, read_httppost_data), the form-data field scanner, the
action block of process_http_request (set / pulse / no-op), the per-channel
read-back and response rendering, and the command-line branch of main.
Hardware drivers live outside the given sources; they are represented by an
abstract per-channel state table and a trace of backend calls, following the
capability contract of the specification.
-/

namespace Crelay

/-- Modelled from the spec: the relay_state_t codes (the data_types header is
not among the sources).  The spec fixes OFF = 0 and ON = 1 as the meaningful
status values, names a reserved third value for Pulse, and makes INVALID the
sentinel that never denotes a hardware state; as a C enumeration these are
the consecutive codes 0, 1, 2, 3. -/
def OFF : Int := 0

/-- Status code for a relay that is switched on (see OFF). -/
def ON : Int := 1

/-- Reserved status code that requests a pulse (see OFF). -/
def PULSE : Int := 2

/-- Sentinel status code meaning "not determined / no action" (see OFF). -/
def INVALID : Int := 3

/-- Value of the API_URL define in crelay.c. -/
def API_URL : String := "gpio"

/-- Value of the RELAY_TAG define in crelay.c. -/
def RELAY_TAG : String := "pin"

/-- Value of the STATE_TAG define in crelay.c. -/
def STATE_TAG : String := "status"

/-- Value of the SERIAL_TAG define in crelay.c. -/
def SERIAL_TAG : String := "serial"

/-- Characters treated as white space by C atoi (isspace). -/
def isSpaceCh (c : Char) : Bool :=
  c = ' ' || c = '\t' || c = '\n' || c = '\x0d' || c = '\x0b' || c = '\x0c'

/-- Decimal digit test used by the atoi model. -/
def isDigitCh (c : Char) : Bool :=
  '0' ≤ c && c ≤ '9'

/-- Accumulate the value of a leading run of decimal digits, as atoi does. -/
def digitsVal : List Char → Nat → Nat
  | [], acc => acc
  | c :: cs, acc =>
    if isDigitCh c then digitsVal cs (acc * 10 + (c.toNat - 48)) else acc

/-- C atoi on a character list: skip white space, read an optional sign and a
run of decimal digits, ignore the rest; no digits give 0. -/
def atoiChars (l : List Char) : Int :=
  match l.dropWhile isSpaceCh with
  | '-' :: rest => - Int.ofNat (digitsVal rest 0)
  | '+' :: rest => Int.ofNat (digitsVal rest 0)
  | rest => Int.ofNat (digitsVal rest 0)

/-- C atoi on a string. -/
def atoi (s : String) : Int := atoiChars s.data

/-- Whether the first list starts the second one (used to model strstr). -/
def leadsWith : List Char → List Char → Bool
  | [], _ => true
  | _ :: _, [] => false
  | n :: ns, h :: hs => n = h && leadsWith ns hs

/-- C strstr: the suffix of the haystack starting at the first occurrence of
the needle, or none when the needle does not occur. -/
def findSub (needle : List Char) : List Char → Option (List Char)
  | [] => if leadsWith needle [] then some [] else none
  | h :: t => if leadsWith needle (h :: t) then some (h :: t) else findSub needle t

/-- C strchr followed by +1: the suffix of the list after the first occurrence
of the character, or none when the character does not occur. -/
def afterChar (c : Char) : List Char → Option (List Char)
  | [] => none
  | x :: xs => if x = c then some xs else afterChar c xs

/-- The decoded fields of one request's form data: relay number (0 when the
pin key is absent), requested state code (INVALID when the status key is
absent) and optional serial filter, exactly the local variables relay,
nstate and serial of process_http_request. -/
structure FormFields where
  relay : Int
  nstate : Int
  serial : Option String
deriving DecidableEq

/-- Value scanned for one numeric tag: strstr for the tag, then atoi of the
text after the tag and the following key/value separator character. -/
def tagValue (tag : String) (fd : List Char) : Option Int :=
  (findSub tag.data fd).map (fun suf => atoiChars (suf.drop (tag.length + 1)))

/-- Serial value scanned from the form data: the text after the serial tag and
separator, cut at the next ampersand (crelay.c lines 580-587). -/
def serialValue (fd : List Char) : Option String :=
  (findSub SERIAL_TAG.data fd).map
    (fun suf => ((suf.drop (SERIAL_TAG.length + 1)).takeWhile (fun c => c != '&')).asString)

/-- The form-data scanning block of process_http_request (lines 564-589):
fields are scanned only when the reported form-data length is positive, and
an absent key leaves the corresponding initial value (0 / INVALID / none). -/
def decodeForm (fd : List Char) (fdlen : Nat) : FormFields :=
  if 0 < fdlen then
    { relay := (tagValue RELAY_TAG fd).getD 0
      nstate := (tagValue STATE_TAG fd).getD INVALID
      serial := serialValue fd }
  else
    { relay := 0, nstate := INVALID, serial := none }

/-- read_httpget_data (lines 460-477): the form data is everything after the
first question mark of the url, truncated to the 64-byte formdata buffer
(when the query is 64 bytes or longer the C buffer is left without a
terminator; the model keeps the 64 copied bytes).  The returned length is
strlen of the copied data; no question mark gives empty data. -/
def read_httpget_data (url : List Char) : List Char × Nat :=
  match afterChar '?' url with
  | none => ([], 0)
  | some rest =>
    let d := rest.take 64
    (d, d.length)

/-- fgets of at most n characters from the given remaining input: reading
stops after a newline, which is kept. -/
def fgetsLine : Nat → List Char → List Char
  | _, [] => []
  | 0, _ => []
  | Nat.succ m, c :: cs => if c = '\n' then [c] else c :: fgetsLine m cs

/-- read_httppost_data (lines 416-449).  The header scan that extracts the
declared Content-Length is abstracted into the content_len argument.  A
declared length reaching the 64-byte formdata buffer size is refused (-1,
modelled as none); otherwise fgets reads at most content_len characters of
the body, stopping after a newline, and fails when input ends with
characters still expected.  The reported form-data length is the declared
content length itself, not the length of the text actually read. -/
def read_httppost_data (content_len : Nat) (body : List Char) : Option (List Char × Nat) :=
  if 64 ≤ content_len then none
  else if 0 < content_len ∧ body = [] then none
  else some (fgetsLine content_len body, content_len)

/-- A resolved relay card: the channel count written by detection into
last_relay, and the per-channel state codes the backend get call reports.
The drivers themselves are outside the sources; following the spec's
capability contract the card state is an abstract table. -/
structure RelayCard where
  relay_count : Nat
  state : Int → Int

/-- The process-wide configuration fields the dispatcher reads. -/
structure DaemonConfig where
  pulse_duration : Nat

/-- One backend interaction or delay, recorded in request order. -/
inductive Ev where
  | detect : Ev
  | getR : Int → Ev
  | setR : Int → Int → Ev
  | sleep : Nat → Ev
deriving DecidableEq

/-- Response body: plain-text lines, or the generated HTML page (the flag
records whether the no-device error block is part of the page). -/
inductive RespBody where
  | text : List String → RespBody
  | page : Bool → RespBody
deriving DecidableEq

/-- An HTTP response as the model observes it: status code and body. -/
structure HttpResp where
  status : Nat
  body : RespBody
deriving DecidableEq

/-- Functional update of a card state table by one backend set call. -/
def setState (m : Int → Int) (c v : Int) : Int → Int :=
  fun i => if i = c then v else m i

/-- The action block of process_http_request (lines 611-639): with form data
present, a nonzero relay and a status different from INVALID, either the
pulse sequence (get, first set, sleep for the configured duration, second
set) or a single set with the raw decoded status; anything else does
nothing.  Returns the card state after the block and the backend trace. -/
def doAction (cfg : DaemonConfig) (fdlen : Nat) (f : FormFields) (m : Int → Int) :
    (Int → Int) × List Ev :=
  if 0 < fdlen ∧ ¬ f.relay = 0 ∧ ¬ f.nstate = INVALID then
    if f.nstate = PULSE then
      if m f.relay = ON then
        (setState (setState m f.relay OFF) f.relay ON,
          [Ev.getR f.relay, Ev.setR f.relay OFF, Ev.sleep cfg.pulse_duration,
            Ev.setR f.relay ON])
      else
        (setState (setState m f.relay ON) f.relay OFF,
          [Ev.getR f.relay, Ev.setR f.relay ON, Ev.sleep cfg.pulse_duration,
            Ev.setR f.relay OFF])
    else
      (setState m f.relay f.nstate, [Ev.setR f.relay f.nstate])
  else (m, [])

/-- One plain-text response line of the HTTP API (line 654 of crelay.c). -/
def relayLine (i : Nat) (v : Int) : String :=
  "Relay " ++ toString i ++ ":" ++ toString v ++ "<br>"

/-- The read-back loop (lines 642-645): one backend get per channel from
FIRST_RELAY = 1 up to last_relay. -/
def readback (count : Nat) : List Ev :=
  (List.range count).map (fun k => Ev.getR (Int.ofNat (k + 1)))

/-- The per-channel state lines of the API response, built from the card
state after the action block. -/
def stateLines (count : Nat) (m : Int → Int) : List String :=
  (List.range count).map (fun k => relayLine (k + 1) (m (Int.ofNat (k + 1))))

/-- The dispatcher part of process_http_request after the form data has been
read (lines 591-684): detect a card; with none, a url containing the API
tag gets the 503 plain-text error and any other url the HTML page with the
error block; with a card, run the action block, read every channel back and
render either the plain-text state table or the HTML page. -/
def dispatch (cfg : DaemonConfig) (card? : Option RelayCard) (url : List Char)
    (fd : List Char) (fdlen : Nat) : HttpResp × List Ev :=
  match card? with
  | none =>
    if (findSub API_URL.data url).isSome then
      ({ status := 503, body := RespBody.text ["ERROR: No compatible device detected"] },
        [Ev.detect])
    else
      ({ status := 200, body := RespBody.page true }, [Ev.detect])
  | some card =>
    let f := decodeForm fd fdlen
    let r := doAction cfg fdlen f card.state
    let resp :=
      if (findSub API_URL.data url).isSome then
        { status := 200, body := RespBody.text (stateLines card.relay_count r.1) }
      else
        { status := 200, body := RespBody.page false }
    (resp, Ev.detect :: r.2 ++ readback card.relay_count)

/-- An incoming HTTP request: method, request target and, for POST, the
declared content length and the body. -/
inductive HttpReq where
  | get : String → HttpReq
  | post : String → Nat → String → HttpReq

/-- process_http_request (lines 488-691) for the two supported methods: read
the form data through the GET or POST reader, answer 500 with an error body
and no further processing when the POST reader fails, and hand everything
else to the dispatcher.  The card detection outcome is abstracted into the
card? argument (the driver probe is outside the sources). -/
def process_http_request (cfg : DaemonConfig) (card? : Option RelayCard) (req : HttpReq) :
    HttpResp × List Ev :=
  match req with
  | HttpReq.get url =>
    let d := read_httpget_data url.data
    dispatch cfg card? url.data d.1 d.2
  | HttpReq.post url cl body =>
    match read_httppost_data cl body.data with
    | none => ({ status := 500, body := RespBody.text ["ERROR: Invalid Input. "] }, [])
    | some d => dispatch cfg card? url.data d.1 d.2

/-- Modelled from the spec: the pulse_duration field of the configuration
structure (the config header is not among the sources).  It holds the pulse
duration in whole seconds and is zero when the configuration file supplied
no value, the structure being zeroed before parsing.  The fix-up of main
lines 850-854 then replaces a zero by the default 1. -/
def startup_pulse_duration (supplied : Option Nat) : Nat :=
  let v := supplied.getD 0
  if v = 0 then 1 else v

/-- Outcomes of the backend calls available to the command-line branch of
main, abstracting the drivers as the spec's capability contract: whether
card detection succeeds, whether the -i enumeration finds any card, and
whether a get or set on a given channel succeeds. -/
structure CliEnv where
  detectOk : Bool
  infoOk : Bool
  getOk : Int → Bool
  setOk : Int → Int → Bool

/-- Observable outcome of one command-line run: process exit code, whether
the usage text was printed, and the backend calls issued. -/
structure CliOut where
  code : Nat
  usage : Bool
  trace : List Ev
deriving DecidableEq

/-- Result of the command-line branch: a normal exit, the daemon branch
(out of scope here), or a crash from reading past the argument vector. -/
inductive CliRes where
  | daemon : CliRes
  | out : CliOut → CliRes
  | crash : CliRes
deriving DecidableEq

/-- The switch on argc of main (lines 968-997), entered after successful card
detection; argn is 1, or 3 when a serial option was consumed.  argc of 2 or
4 queries the relay named by argv[argn]; argc of 3 or 5 matches argv[argn+1]
against the exact strings on, ON, off and OFF and sets the relay, any other
token printing usage and exiting with failure; every other argc prints usage
and falls through to exit with success.  Reading past the argument vector is
a crash. -/
def cliAfterDetect (argv : List String) (argn : Nat) (env : CliEnv) : CliRes :=
  let argc := argv.length
  if argc = 2 ∨ argc = 4 then
    match argv.get? argn with
    | none => CliRes.crash
    | some chs =>
      if env.getOk (atoi chs) then CliRes.out ⟨0, false, [Ev.getR (atoi chs)]⟩
      else CliRes.out ⟨1, false, [Ev.getR (atoi chs)]⟩
  else if argc = 3 ∨ argc = 5 then
    match argv.get? argn, argv.get? (argn + 1) with
    | some chs, some st =>
      if st = "on" ∨ st = "ON" then
        if env.setOk (atoi chs) ON then CliRes.out ⟨0, false, [Ev.setR (atoi chs) ON]⟩
        else CliRes.out ⟨1, false, [Ev.setR (atoi chs) ON]⟩
      else if st = "off" ∨ st = "OFF" then
        if env.setOk (atoi chs) OFF then CliRes.out ⟨0, false, [Ev.setR (atoi chs) OFF]⟩
        else CliRes.out ⟨1, false, [Ev.setR (atoi chs) OFF]⟩
      else CliRes.out ⟨1, true, []⟩
    | _, _ => CliRes.crash
  else CliRes.out ⟨0, true, []⟩

/-- The command-line entry of main (lines 751-1001) with the backend outcomes
abstracted: a bare invocation prints usage and exits with success; -d and -D
enter the daemon branch; -i enumerates cards, exiting 0 on success and with
the truncated status 255 of return -1 otherwise; -s without a value prints
usage and exits with failure; otherwise a failed detection exits with
failure and a successful one enters the argc switch. -/
def cliMain (argv : List String) (env : CliEnv) : CliRes :=
  match argv with
  | [] => CliRes.out ⟨0, true, []⟩
  | [_] => CliRes.out ⟨0, true, []⟩
  | _ :: a1 :: rest =>
    if a1 = "-d" ∨ a1 = "-D" then CliRes.daemon
    else if a1 = "-i" then
      if env.infoOk then CliRes.out ⟨0, false, []⟩ else CliRes.out ⟨255, false, []⟩
    else if a1 = "-s" then
      match rest with
      | [] => CliRes.out ⟨1, true, []⟩
      | _ :: _ =>
        if env.detectOk then cliAfterDetect argv 3 env
        else CliRes.out ⟨1, false, []⟩
    else
      if env.detectOk then cliAfterDetect argv 1 env
      else CliRes.out ⟨1, false, []⟩

/-- Follows the spec's wording, not the sources: the request path is the part
of the request target before the query string.  Used to compare the spec's
path-based dispatch with the full-target substring check of the code. -/
def specRequestPath (url : List Char) : List Char :=
  url.takeWhile (fun c => c != '?')

/-- The trace of a dispatched request on a resolved card is the detection,
the action block's backend calls and the read-back gets, in that order. -/
theorem dispatch_some_trace (cfg : DaemonConfig) (card : RelayCard) (url fd : List Char)
    (fdlen : Nat) :
    (dispatch cfg (some card) url fd fdlen).2 =
      Ev.detect :: (doAction cfg fdlen (decodeForm fd fdlen) card.state).2 ++
        readback card.relay_count := rfl

/-- The response of a dispatched request on a resolved card at an API url is
the 200 state table built from the post-action card state. -/
theorem dispatch_some_api (cfg : DaemonConfig) (card : RelayCard) (url fd : List Char)
    (fdlen : Nat) (h : (findSub API_URL.data url).isSome = true) :
    (dispatch cfg (some card) url fd fdlen).1 =
      { status := 200,
        body := RespBody.text (stateLines card.relay_count
          (doAction cfg fdlen (decodeForm fd fdlen) card.state).1) } := by
  simp only [dispatch, h, if_true]

/-- The read-back loop performs no sleep. -/
theorem sleep_not_in_readback (d n : Nat) : Ev.sleep d ∉ readback n := by
  simp [readback]

/-- Every sleep of the action block lasts exactly the configured duration. -/
theorem sleep_in_doAction (cfg : DaemonConfig) (fdlen : Nat) (f : FormFields)
    (m : Int → Int) (d : Nat) (h : Ev.sleep d ∈ (doAction cfg fdlen f m).2) :
    d = cfg.pulse_duration := by
  unfold doAction at h
  split at h
  · split at h
    · split at h <;> simp_all
    · simp_all
  · simp_all

/-- Every sleep of a dispatched request lasts exactly the configured
duration. -/
theorem sleep_in_dispatch (cfg : DaemonConfig) (card? : Option RelayCard)
    (url fd : List Char) (fdlen : Nat) (d : Nat)
    (h : Ev.sleep d ∈ (dispatch cfg card? url fd fdlen).2) : d = cfg.pulse_duration := by
  cases card? with
  | none =>
    by_cases hc : (findSub API_URL.data url).isSome = true
    · simp [dispatch, hc] at h
    · simp [dispatch, hc] at h
  | some card =>
    rw [dispatch_some_trace] at h
    rcases List.mem_cons.mp h with h1 | h2
    · exact absurd h1 (by simp)
    rcases List.mem_append.mp h2 with h3 | h4
    · exact sleep_in_doAction _ _ _ _ _ h3
    · exact absurd h4 (sleep_not_in_readback d _)

/-- Every sleep of a processed request lasts exactly the configured
duration. -/
theorem sleep_in_process (cfg : DaemonConfig) (card? : Option RelayCard)
    (req : HttpReq) (d : Nat)
    (h : Ev.sleep d ∈ (process_http_request cfg card? req).2) : d = cfg.pulse_duration := by
  cases req with
  | get url => exact sleep_in_dispatch _ _ _ _ _ _ h
  | post url cl body =>
    simp only [process_http_request] at h
    rcases hr : read_httppost_data cl body.data with _ | dd <;> rw [hr] at h
    · simp at h
    · exact sleep_in_dispatch _ _ _ _ _ _ h

/-- C10: every HTTP POST request whose declared Content-Length reaches the
64-byte form-data buffer size is refused before any processing: the response
has status 500 with an error body and the trace is empty, so no card
detection and no relay action happens for the request. -/
theorem c10_oversized_post_rejected (cfg : DaemonConfig) (card? : Option RelayCard)
    (url body : String) (cl : Nat) (h : 64 ≤ cl) :
    process_http_request cfg card? (HttpReq.post url cl body) =
      ({ status := 500, body := RespBody.text ["ERROR: Invalid Input. "] }, []) := by
  simp [process_http_request, read_httppost_data, h]

/-- Witness for C10 at Content-Length 64. -/
theorem c10_witness :
    process_http_request ⟨1⟩ none (HttpReq.post "/gpio" 64 "pin=1&status=1") =
      ({ status := 500, body := RespBody.text ["ERROR: Invalid Input. "] }, []) :=
  c10_oversized_post_rejected ⟨1⟩ none "/gpio" "pin=1&status=1" 64 (by decide)

/-- C7 counterexample: with no device, a request whose path component does
not contain the API tag but whose query string does is answered with the 503
plain-text error, not with the HTML error block the claim requires for such
a path. -/
theorem c7_counterexample :
    (findSub API_URL.data (specRequestPath "/page?serial=gpiox".data)).isSome = false ∧
    process_http_request ⟨1⟩ none (HttpReq.get "/page?serial=gpiox") =
      ({ status := 503, body := RespBody.text ["ERROR: No compatible device detected"] },
        [Ev.detect]) := by
  exact ⟨by decide, by decide⟩

/-- C7 amended: when no compatible device is found the check is a substring
search for the API tag over the entire request target, path and query alike:
a target containing it anywhere gets status 503 with the plain-text error
body, any other target gets the HTML page with the error block; both are
normal responses of the request loop, never a process exit. -/
theorem c7_no_device_response (cfg : DaemonConfig) (url fd : List Char) (fdlen : Nat) :
    ((findSub API_URL.data url).isSome = true →
      dispatch cfg none url fd fdlen =
        ({ status := 503, body := RespBody.text ["ERROR: No compatible device detected"] },
          [Ev.detect])) ∧
    ((findSub API_URL.data url).isSome = false →
      dispatch cfg none url fd fdlen =
        ({ status := 200, body := RespBody.page true }, [Ev.detect])) := by
  constructor <;> intro h <;> simp [dispatch, h]

/-- Witness for C7 at an API url. -/
theorem c7_witness :
    dispatch ⟨1⟩ none "/gpio".data [] 0 =
      ({ status := 503, body := RespBody.text ["ERROR: No compatible device detected"] },
        [Ev.detect]) :=
  (c7_no_device_response ⟨1⟩ "/gpio".data [] 0).1 (by decide)

/-- C9: the pulse duration resolved at daemon startup is strictly positive,
equals the default 1 when the configuration supplies no value, and every
sleep performed by any later request uses exactly that resolved value. -/
theorem c9_pulse_duration_invariant (supplied : Option Nat) :
    0 < startup_pulse_duration supplied ∧
    (supplied = none → startup_pulse_duration supplied = 1) ∧
    ∀ (card? : Option RelayCard) (req : HttpReq) (d : Nat),
      Ev.sleep d ∈ (process_http_request ⟨startup_pulse_duration supplied⟩ card? req).2 →
        d = startup_pulse_duration supplied := by
  refine ⟨?_, ?_, ?_⟩
  · simp only [startup_pulse_duration]
    split <;> omega
  · intro h
    subst h
    rfl
  · intro card? req d h
    exact sleep_in_process _ _ _ _ h

/-- Witness for C9 with no configured value. -/
theorem c9_witness :
    0 < startup_pulse_duration none ∧ startup_pulse_duration none = 1 :=
  ⟨(c9_pulse_duration_invariant none).1, (c9_pulse_duration_invariant none).2.1 rfl⟩

/-- C1 counterexample: on a four-channel card, a request for channel 5 with
status 1 is a state-changing command whose channel is outside the card's
range, yet the request answers 200 with the full state table and the trace
contains a backend set call on channel 5: no ChannelOutOfRange failure is
produced and a backend call is issued. -/
theorem c1_counterexample :
    (4 : Nat) < 5 ∧
    process_http_request ⟨1⟩ (some ⟨4, fun _ => OFF⟩) (HttpReq.get "/gpio?pin=5&status=1") =
      ({ status := 200,
         body := RespBody.text
           ["Relay 1:0<br>", "Relay 2:0<br>", "Relay 3:0<br>", "Relay 4:0<br>"] },
        [Ev.detect, Ev.setR 5 1, Ev.getR 1, Ev.getR 2, Ev.getR 3, Ev.getR 4]) := by
  exact ⟨by decide, by decide⟩

/-- C1 amended: the dispatcher performs no channel bound validation at all.
A state-changing or pulse command whose channel lies outside the resolved
card's range still issues a backend set call carrying the raw channel value,
and the request completes with a 200 success response; the channel is never
wrapped or clamped, and no request-level ChannelOutOfRange failure exists. -/
theorem c1_no_bound_check (cfg : DaemonConfig) (card : RelayCard) (url fd : List Char)
    (fdlen : Nat) (hlen : 0 < fdlen)
    (hrelay : ¬ (decodeForm fd fdlen).relay = 0)
    (hstate : ¬ (decodeForm fd fdlen).nstate = INVALID)
    (_hout : ¬ (1 ≤ (decodeForm fd fdlen).relay ∧
        (decodeForm fd fdlen).relay ≤ Int.ofNat card.relay_count)) :
    (dispatch cfg (some card) url fd fdlen).1.status = 200 ∧
    ∃ v, Ev.setR (decodeForm fd fdlen).relay v ∈ (dispatch cfg (some card) url fd fdlen).2 := by
  constructor
  · simp only [dispatch]
    split <;> rfl
  · rw [dispatch_some_trace]
    have hmem : ∃ v,
        Ev.setR (decodeForm fd fdlen).relay v ∈
          (doAction cfg fdlen (decodeForm fd fdlen) card.state).2 := by
      unfold doAction
      rw [if_pos ⟨hlen, hrelay, hstate⟩]
      split
      · split
        · exact ⟨OFF, by simp⟩
        · exact ⟨ON, by simp⟩
      · exact ⟨(decodeForm fd fdlen).nstate, by simp⟩
    obtain ⟨v, hv⟩ := hmem
    exact ⟨v, List.mem_cons_of_mem _ (List.mem_append_left _ hv)⟩

/-- Witness for C1 on a four-channel card and channel 5. -/
theorem c1_witness :
    (dispatch ⟨1⟩ (some ⟨4, fun _ => OFF⟩) "/gpio?pin=5&status=1".data
        "pin=5&status=1".data 14).1.status = 200 ∧
    ∃ v, Ev.setR (decodeForm "pin=5&status=1".data 14).relay v ∈
        (dispatch ⟨1⟩ (some ⟨4, fun _ => OFF⟩) "/gpio?pin=5&status=1".data
          "pin=5&status=1".data 14).2 :=
  c1_no_bound_check ⟨1⟩ ⟨4, fun _ => OFF⟩ "/gpio?pin=5&status=1".data
    "pin=5&status=1".data 14 (by decide) (by decide) (by decide) (by decide)

/-- C2 counterexample: a pulse on an in-range channel whose observed state is
the unknown sentinel INVALID runs the set-ON, sleep, set-OFF sequence and
leaves the channel OFF, which differs from the state observed before the
pulse began, against the claim's final-state assertion. -/
theorem c2_counterexample :
    process_http_request ⟨2⟩ (some ⟨1, fun _ => INVALID⟩) (HttpReq.get "/gpio?pin=1&status=2") =
      ({ status := 200, body := RespBody.text ["Relay 1:0<br>"] },
        [Ev.detect, Ev.getR 1, Ev.setR 1 1, Ev.sleep 2, Ev.setR 1 0, Ev.getR 1]) ∧
    ¬ OFF = INVALID := by
  exact ⟨by decide, by decide⟩

/-- C2 amended: a pulse command first reads the channel's state; observed ON
gives the sequence set-OFF, sleep for the configured duration, set-ON, and
any other observed value, OFF or unknown, gives set-ON, sleep, set-OFF.  The
channel's state after the second write equals the state observed before the
pulse whenever that state was ON or OFF; when it was unknown the final state
is OFF. -/
theorem c2_pulse_sequence (cfg : DaemonConfig) (card : RelayCard) (fdlen : Nat)
    (f : FormFields) (hlen : 0 < fdlen) (hrelay : ¬ f.relay = 0)
    (hpulse : f.nstate = PULSE) (_hlo : 1 ≤ f.relay)
    (_hhi : f.relay ≤ Int.ofNat card.relay_count) :
    (card.state f.relay = ON →
      (doAction cfg fdlen f card.state).2 =
        [Ev.getR f.relay, Ev.setR f.relay OFF, Ev.sleep cfg.pulse_duration,
          Ev.setR f.relay ON] ∧
      (doAction cfg fdlen f card.state).1 f.relay = ON) ∧
    (¬ card.state f.relay = ON →
      (doAction cfg fdlen f card.state).2 =
        [Ev.getR f.relay, Ev.setR f.relay ON, Ev.sleep cfg.pulse_duration,
          Ev.setR f.relay OFF] ∧
      (doAction cfg fdlen f card.state).1 f.relay = OFF) ∧
    (card.state f.relay = ON ∨ card.state f.relay = OFF →
      (doAction cfg fdlen f card.state).1 f.relay = card.state f.relay) := by
  have hinv : ¬ f.nstate = INVALID := by
    rw [hpulse]
    decide
  refine ⟨?_, ?_, ?_⟩
  · intro hon
    unfold doAction
    rw [if_pos ⟨hlen, hrelay, hinv⟩, if_pos hpulse, if_pos hon]
    exact ⟨rfl, by simp [setState]⟩
  · intro hoff
    unfold doAction
    rw [if_pos ⟨hlen, hrelay, hinv⟩, if_pos hpulse, if_neg hoff]
    exact ⟨rfl, by simp [setState]⟩
  · rintro (hon | hoff)
    · unfold doAction
      rw [if_pos ⟨hlen, hrelay, hinv⟩, if_pos hpulse, if_pos hon, hon]
      simp [setState]
    · have hne : ¬ card.state f.relay = ON := by
        rw [hoff]
        decide
      unfold doAction
      rw [if_pos ⟨hlen, hrelay, hinv⟩, if_pos hpulse, if_neg hne, hoff]
      simp [setState]

/-- Witness for C2 with an observed ON channel. -/
theorem c2_witness :
    (doAction ⟨3⟩ 7 ⟨1, PULSE, none⟩ (RelayCard.mk 1 (fun _ => ON)).state).2 =
      [Ev.getR 1, Ev.setR 1 OFF, Ev.sleep 3, Ev.setR 1 ON] ∧
    (doAction ⟨3⟩ 7 ⟨1, PULSE, none⟩ (RelayCard.mk 1 (fun _ => ON)).state).1 1 = ON :=
  (c2_pulse_sequence ⟨3⟩ (RelayCard.mk 1 (fun _ => ON)) 7 ⟨1, PULSE, none⟩
    (by decide) (by decide) rfl (by decide) (by decide)).1 rfl

/-- C3 counterexample: a request with a status value of 5, which is neither
OFF, ON nor the reserved pulse code, is not treated as a pure status query:
the dispatcher issues a backend set call with the raw value 5 and the state
table reports the changed channel. -/
theorem c3_counterexample :
    ¬ ((5 : Int) = OFF ∨ (5 : Int) = ON ∨ (5 : Int) = PULSE) ∧
    process_http_request ⟨1⟩ (some ⟨4, fun _ => OFF⟩) (HttpReq.get "/gpio?pin=1&status=5") =
      ({ status := 200,
         body := RespBody.text
           ["Relay 1:5<br>", "Relay 2:0<br>", "Relay 3:0<br>", "Relay 4:0<br>"] },
        [Ev.detect, Ev.setR 1 5, Ev.getR 1, Ev.getR 2, Ev.getR 3, Ev.getR 4]) := by
  exact ⟨by decide, by decide⟩

/-- C3 amended: only the single sentinel status INVALID causes no action and
falls through to a pure status query; with a nonzero channel, the reserved
pulse code triggers the pulse sequence and every other status value,
including integers outside the meaningful set, is passed unchanged to a
backend set call. -/
theorem c3_status_handling (cfg : DaemonConfig) (fdlen : Nat) (f : FormFields)
    (m : Int → Int) (hlen : 0 < fdlen) (hrelay : ¬ f.relay = 0) :
    (f.nstate = INVALID → doAction cfg fdlen f m = (m, [])) ∧
    (¬ f.nstate = INVALID → ¬ f.nstate = PULSE →
      doAction cfg fdlen f m =
        (setState m f.relay f.nstate, [Ev.setR f.relay f.nstate])) ∧
    (f.nstate = PULSE → ∃ a b,
      (doAction cfg fdlen f m).2 =
        [Ev.getR f.relay, Ev.setR f.relay a, Ev.sleep cfg.pulse_duration,
          Ev.setR f.relay b]) := by
  refine ⟨?_, ?_, ?_⟩
  · intro hinv
    unfold doAction
    rw [if_neg]
    intro hc
    exact hc.2.2 hinv
  · intro hinv hpulse
    unfold doAction
    rw [if_pos ⟨hlen, hrelay, hinv⟩, if_neg hpulse]
  · intro hpulse
    have hinv : ¬ f.nstate = INVALID := by
      rw [hpulse]
      decide
    unfold doAction
    rw [if_pos ⟨hlen, hrelay, hinv⟩, if_pos hpulse]
    by_cases hon : m f.relay = ON
    · rw [if_pos hon]
      exact ⟨OFF, ON, rfl⟩
    · rw [if_neg hon]
      exact ⟨ON, OFF, rfl⟩

/-- Witness for C3 with the raw status value 5. -/
theorem c3_witness :
    doAction ⟨1⟩ 14 ⟨1, 5, none⟩ (fun _ => OFF) =
      (setState (fun _ => OFF) 1 5, [Ev.setR 1 5]) :=
  (c3_status_handling ⟨1⟩ 14 ⟨1, 5, none⟩ (fun _ => OFF) (by decide) (by decide)).2.1
    (by decide) (by decide)

/-- C4: with a resolved card the dispatcher reads back every channel from 1
to the card's relay count after the optional action, and at an API url the
success response is a 200 whose body has exactly one Relay line per channel,
each built from the card state after the action block. -/
theorem c4_full_readback (cfg : DaemonConfig) (card : RelayCard) (url fd : List Char)
    (fdlen : Nat) :
    (∀ k : Nat, 1 ≤ k → k ≤ card.relay_count →
      Ev.getR (Int.ofNat k) ∈ (dispatch cfg (some card) url fd fdlen).2) ∧
    ((findSub API_URL.data url).isSome = true →
      ∃ lines, (dispatch cfg (some card) url fd fdlen).1 =
          { status := 200, body := RespBody.text lines } ∧
        lines.length = card.relay_count ∧
        ∀ k : Nat, k < card.relay_count →
          lines.get? k = some (relayLine (k + 1)
            ((doAction cfg fdlen (decodeForm fd fdlen) card.state).1
              (Int.ofNat (k + 1))))) := by
  constructor
  · intro k hk1 hk2
    rw [dispatch_some_trace]
    refine List.mem_cons_of_mem _ (List.mem_append_right _ ?_)
    simp only [readback, List.mem_map]
    refine ⟨k - 1, List.mem_range.mpr (by omega), ?_⟩
    rw [Nat.sub_add_cancel hk1]
  · intro hapi
    refine ⟨stateLines card.relay_count
      (doAction cfg fdlen (decodeForm fd fdlen) card.state).1, ?_, ?_, ?_⟩
    · exact dispatch_some_api cfg card url fd fdlen hapi
    · simp [stateLines]
    · intro k hk
      simp [stateLines, List.getElem?_map, List.getElem?_range hk]

/-- Witness for C4 on a two-channel card with an API url. -/
theorem c4_witness :
    Ev.getR 2 ∈ (dispatch ⟨1⟩ (some ⟨2, fun _ => OFF⟩) "/gpio".data [] 0).2 :=
  (c4_full_readback ⟨1⟩ ⟨2, fun _ => OFF⟩ "/gpio".data [] 0).1 2 (by decide) (by decide)

/-- C5 counterexample: with a device attached, the mixed-case state token On
does not yield a SetState command: the run prints usage and exits with
failure, issuing no backend call. -/
theorem c5_counterexample :
    cliMain ["crelay", "1", "On"] ⟨true, true, fun _ => true, fun _ _ => true⟩ =
      CliRes.out ⟨1, true, []⟩ := by
  decide

/-- C5 amended: the command-line state token is matched against the four
exact strings on, ON, off and OFF; those tokens yield the corresponding
backend set call, while a token in any other case mixture, such as On or
oFF, is unrecognized and yields a usage error exiting with failure instead
of a command, with or without a preceding serial option. -/
theorem c5_state_token_matching (env : CliEnv) (chs st ser : String)
    (h1 : ¬ chs = "-d") (h2 : ¬ chs = "-D") (h3 : ¬ chs = "-i") (h4 : ¬ chs = "-s")
    (hdet : env.detectOk = true) :
    ((st = "on" ∨ st = "ON") → ∃ o, cliMain ["crelay", chs, st] env = CliRes.out o ∧
      o.trace = [Ev.setR (atoi chs) ON] ∧ o.usage = false) ∧
    ((st = "off" ∨ st = "OFF") → ∃ o, cliMain ["crelay", chs, st] env = CliRes.out o ∧
      o.trace = [Ev.setR (atoi chs) OFF] ∧ o.usage = false) ∧
    (¬ st = "on" → ¬ st = "ON" → ¬ st = "off" → ¬ st = "OFF" →
      cliMain ["crelay", chs, st] env = CliRes.out ⟨1, true, []⟩) ∧
    ((st = "on" ∨ st = "ON") → ∃ o,
      cliMain ["crelay", "-s", ser, chs, st] env = CliRes.out o ∧
      o.trace = [Ev.setR (atoi chs) ON] ∧ o.usage = false) ∧
    ((st = "off" ∨ st = "OFF") → ∃ o,
      cliMain ["crelay", "-s", ser, chs, st] env = CliRes.out o ∧
      o.trace = [Ev.setR (atoi chs) OFF] ∧ o.usage = false) ∧
    (¬ st = "on" → ¬ st = "ON" → ¬ st = "off" → ¬ st = "OFF" →
      cliMain ["crelay", "-s", ser, chs, st] env = CliRes.out ⟨1, true, []⟩) := by
  have hm : cliMain ["crelay", chs, st] env = cliAfterDetect ["crelay", chs, st] 1 env := by
    simp [cliMain, h1, h2, h3, h4, hdet]
  have hs : cliMain ["crelay", "-s", ser, chs, st] env =
      cliAfterDetect ["crelay", "-s", ser, chs, st] 3 env := by
    simp [cliMain, hdet]
  refine ⟨?_, ?_, ?_, ?_, ?_, ?_⟩
  · intro hon
    rw [hm]
    simp only [cliAfterDetect]
    norm_num
    rw [if_pos hon]
    by_cases hok : env.setOk (atoi chs) ON = true
    · rw [if_pos hok]
      exact ⟨_, rfl, rfl, rfl⟩
    · rw [if_neg hok]
      exact ⟨_, rfl, rfl, rfl⟩
  · intro hoff
    have hnon : ¬ (st = "on" ∨ st = "ON") := by
      rcases hoff with h | h <;> subst h <;> decide
    rw [hm]
    simp only [cliAfterDetect]
    norm_num
    rw [if_neg hnon, if_pos hoff]
    by_cases hok : env.setOk (atoi chs) OFF = true
    · rw [if_pos hok]
      exact ⟨_, rfl, rfl, rfl⟩
    · rw [if_neg hok]
      exact ⟨_, rfl, rfl, rfl⟩
  · intro hn1 hn2 hn3 hn4
    rw [hm]
    simp only [cliAfterDetect]
    norm_num
    rw [if_neg (by tauto), if_neg (by tauto)]
  · intro hon
    rw [hs]
    simp only [cliAfterDetect]
    norm_num
    rw [if_pos hon]
    by_cases hok : env.setOk (atoi chs) ON = true
    · rw [if_pos hok]
      exact ⟨_, rfl, rfl, rfl⟩
    · rw [if_neg hok]
      exact ⟨_, rfl, rfl, rfl⟩
  · intro hoff
    have hnon : ¬ (st = "on" ∨ st = "ON") := by
      rcases hoff with h | h <;> subst h <;> decide
    rw [hs]
    simp only [cliAfterDetect]
    norm_num
    rw [if_neg hnon, if_pos hoff]
    by_cases hok : env.setOk (atoi chs) OFF = true
    · rw [if_pos hok]
      exact ⟨_, rfl, rfl, rfl⟩
    · rw [if_neg hok]
      exact ⟨_, rfl, rfl, rfl⟩
  · intro hn1 hn2 hn3 hn4
    rw [hs]
    simp only [cliAfterDetect]
    norm_num
    rw [if_neg (by tauto), if_neg (by tauto)]

/-- Witness for C5 with the exact token ON. -/
theorem c5_witness :
    ∃ o, cliMain ["crelay", "2", "ON"] ⟨true, true, fun _ => true, fun _ _ => true⟩ =
      CliRes.out o ∧ o.trace = [Ev.setR (atoi "2") ON] ∧ o.usage = false :=
  (c5_state_token_matching ⟨true, true, fun _ => true, fun _ _ => true⟩ "2" "ON" "x"
    (by decide) (by decide) (by decide) (by decide) rfl).1 (Or.inr rfl)

/-- C6 counterexample: with a device attached, the malformed six-entry
argument vector prints usage but exits with code 0, against the claim that
every malformed vector exits non-zero. -/
theorem c6_counterexample :
    cliMain ["crelay", "1", "on", "a", "b", "c"] ⟨true, true, fun _ => true, fun _ _ => true⟩ =
      CliRes.out ⟨0, true, []⟩ := by
  decide

/-- C6 amended: the exit code is 0 on success and non-zero on no-device, a
failed backend get or set, an unrecognized state token or a serial option
without its value, the last two printing usage; but a bare invocation and
every argument vector of six or more entries reaching the argument switch
print usage and still exit 0. -/
theorem c6_exit_codes (env : CliEnv) (chs st : String)
    (h1 : ¬ chs = "-d") (h2 : ¬ chs = "-D") (h3 : ¬ chs = "-i") (h4 : ¬ chs = "-s") :
    (cliMain ["crelay"] env = CliRes.out ⟨0, true, []⟩) ∧
    (env.detectOk = false → cliMain ["crelay", chs] env = CliRes.out ⟨1, false, []⟩) ∧
    (env.infoOk = false → cliMain ["crelay", "-i"] env = CliRes.out ⟨255, false, []⟩) ∧
    (env.detectOk = true → env.getOk (atoi chs) = false →
      cliMain ["crelay", chs] env = CliRes.out ⟨1, false, [Ev.getR (atoi chs)]⟩) ∧
    (env.detectOk = true → env.getOk (atoi chs) = true →
      cliMain ["crelay", chs] env = CliRes.out ⟨0, false, [Ev.getR (atoi chs)]⟩) ∧
    (env.detectOk = true → env.setOk (atoi chs) ON = false →
      cliMain ["crelay", chs, "on"] env = CliRes.out ⟨1, false, [Ev.setR (atoi chs) ON]⟩) ∧
    (env.detectOk = true → ¬ st = "on" → ¬ st = "ON" → ¬ st = "off" → ¬ st = "OFF" →
      cliMain ["crelay", chs, st] env = CliRes.out ⟨1, true, []⟩) ∧
    (cliMain ["crelay", "-s"] env = CliRes.out ⟨1, true, []⟩) ∧
    (∀ r3 r4 r5 rest, env.detectOk = true →
      cliMain ("crelay" :: chs :: st :: r3 :: r4 :: r5 :: rest) env =
        CliRes.out ⟨0, true, []⟩) := by
  refine ⟨rfl, ?_, ?_, ?_, ?_, ?_, ?_, ?_, ?_⟩
  · intro hdet
    simp [cliMain, h1, h2, h3, h4, hdet]
  · intro hinfo
    simp [cliMain, hinfo]
  · intro hdet hget
    simp [cliMain, cliAfterDetect, h1, h2, h3, h4, hdet, hget]
  · intro hdet hget
    simp [cliMain, cliAfterDetect, h1, h2, h3, h4, hdet, hget]
  · intro hdet hset
    simp [cliMain, cliAfterDetect, h1, h2, h3, h4, hdet, hset]
  · intro hdet hn1 hn2 hn3 hn4
    have hm : cliMain ["crelay", chs, st] env = cliAfterDetect ["crelay", chs, st] 1 env := by
      simp [cliMain, h1, h2, h3, h4, hdet]
    rw [hm]
    simp only [cliAfterDetect]
    norm_num
    rw [if_neg (by tauto), if_neg (by tauto)]
  · rfl
  · intro r3 r4 r5 rest hdet
    have hm : cliMain ("crelay" :: chs :: st :: r3 :: r4 :: r5 :: rest) env =
        cliAfterDetect ("crelay" :: chs :: st :: r3 :: r4 :: r5 :: rest) 1 env := by
      simp [cliMain, h1, h2, h3, h4, hdet]
    rw [hm]
    simp only [cliAfterDetect, List.length_cons]
    rw [if_neg (by omega), if_neg (by omega)]

/-- Witness for C6: a bare invocation exits 0, and detection failure gives a
non-zero exit. -/
theorem c6_witness :
    cliMain ["crelay"] ⟨false, true, fun _ => true, fun _ _ => true⟩ =
      CliRes.out ⟨0, true, []⟩ ∧
    cliMain ["crelay", "9"] ⟨false, true, fun _ => true, fun _ _ => true⟩ =
      CliRes.out ⟨1, false, []⟩ :=
  ⟨(c6_exit_codes ⟨false, true, fun _ => true, fun _ _ => true⟩ "9" "zz"
      (by decide) (by decide) (by decide) (by decide)).1,
    (c6_exit_codes ⟨false, true, fun _ => true, fun _ _ => true⟩ "9" "zz"
      (by decide) (by decide) (by decide) (by decide)).2.1 rfl⟩

/-- Reading at most as many characters as a newline-free input holds returns
the whole input, as fgets does. -/
theorem fgetsLine_all (l : List Char) : ∀ n : Nat, l.length ≤ n →
    (∀ c ∈ l, ¬ c = '\n') → fgetsLine n l = l := by
  induction l with
  | nil => intro n _ _; cases n <;> rfl
  | cons c cs ih =>
    intro n hn hnl
    cases n with
    | zero => simp at hn
    | succ m =>
      simp only [fgetsLine]
      rw [if_neg (hnl c (List.mem_cons_self c cs))]
      rw [ih m (by simpa using hn) (fun x hx => hnl x (List.mem_cons_of_mem c hx))]

/-- C8 counterexample: the form-data string pin=9 newline status=1 decodes a
status of ON through the GET path but leaves the status at the INVALID
sentinel through the POST path, because the POST reader stops at the
newline: the two paths do not produce the same decoded fields. -/
theorem c8_counterexample :
    (decodeForm (read_httpget_data "/p?pin=9\nstatus=1".data).1
      (read_httpget_data "/p?pin=9\nstatus=1".data).2).nstate = ON ∧
    (decodeForm ((read_httppost_data 14 "pin=9\nstatus=1".data).getD ([], 0)).1
      ((read_httppost_data 14 "pin=9\nstatus=1".data).getD ([], 0)).2).nstate = INVALID ∧
    ¬ ON = INVALID := by
  exact ⟨by decide, by decide, by decide⟩

/-- C8 amended: for every form-data string shorter than the 64-byte buffer
and containing no newline, the GET path and the POST path deliver the same
form data with the same reported length, so the decoded channel, status and
serial fields agree, absent keys staying unset in both; a newline makes the
POST reader stop early, and a string of 64 bytes or more is rejected by the
POST reader while the GET reader truncates. -/
theorem c8_get_post_equivalence (s : String) (hlen : s.data.length < 64)
    (hnl : ∀ c ∈ s.data, ¬ c = '\n') :
    read_httpget_data ("/p?" ++ s).data = (s.data, s.data.length) ∧
    read_httppost_data s.data.length s.data = some (s.data, s.data.length) ∧
    decodeForm (read_httpget_data ("/p?" ++ s).data).1
        (read_httpget_data ("/p?" ++ s).data).2 =
      decodeForm ((read_httppost_data s.data.length s.data).getD ([], 0)).1
        ((read_httppost_data s.data.length s.data).getD ([], 0)).2 := by
  have hdata : ("/p?" ++ s).data = '/' :: 'p' :: '?' :: s.data := by
    rw [String.data_append]
    rfl
  have hafter : afterChar '?' ('/' :: 'p' :: '?' :: s.data) = some s.data := rfl
  have hget : read_httpget_data ("/p?" ++ s).data = (s.data, s.data.length) := by
    rw [hdata]
    simp only [read_httpget_data, hafter]
    rw [List.take_of_length_le (le_of_lt hlen)]
  have hpost : read_httppost_data s.data.length s.data = some (s.data, s.data.length) := by
    unfold read_httppost_data
    rw [if_neg (by omega)]
    rw [if_neg ?hemp]
    · rw [fgetsLine_all s.data s.data.length le_rfl hnl]
    case hemp =>
      rintro ⟨hpos, hempty⟩
      rw [hempty] at hpos
      simp at hpos
  refine ⟨hget, hpost, ?_⟩
  rw [hget, hpost]
  rfl

/-- Witness for C8 on a short newline-free form string. -/
theorem c8_witness :
    read_httppost_data "pin=1&status=0".data.length "pin=1&status=0".data =
      some ("pin=1&status=0".data, "pin=1&status=0".data.length) :=
  (c8_get_post_equivalence "pin=1&status=0" (by decide) (by decide)).2.1

end Crelay
